import Mathlib

/-!
Shallow embedding of `internal/smtpClient/imap.go` (package smtpclient) of
mail-api-back, together with theorems settling the claims about it.

Modelling conventions:
* Go `uint32` values are `Nat` together with reduction modulo `U32 = 2^32`
  exactly where the Go code converts (`uint32(offset)`, `uint32(pageSize)`).
* The external go-imap session is an environment: each operation receives the
  outcome the server would produce (the `Select` outcome and the streamed
  fetch records plus the deferred error of the `done` channel) as explicit
  arguments, and returns, besides its result, the list of protocol effects it
  performed (mailbox selection, range fetch, single fetch), so that "no fetch
  attempted" is a statement about the returned effect list.
* Addresses are carried already rendered (the result of go-imap's
  `Address()`), dates as opaque numbers: the code moves both verbatim.
* Errors are the strings built by the corresponding `fmt.Errorf` calls, with
  the wrapped error's text appended after the `: ` of the format string.
-/

namespace SmtpClient

/-- 2^32, the modulus of Go's `uint32` conversions. -/
def U32 : Nat := 4294967296

/-- Modelled from the spec: the `Attachment` record of §3 (`Filename`
(optional, empty when absent), `Content` (raw bytes), `MimeType`); its Go
declaration is outside `imap.go`, which only populates these three fields. -/
structure Attachment where
  Filename : String
  Content : List Nat
  MimeType : String
  deriving Repr, DecidableEq

/-- Modelled from the spec: the `Message` record of §3 (ID, Subject, Date,
Flags, From, To, Size, Body, Attachments); its Go declaration is outside
`imap.go`, which populates exactly these fields.  Zero values are `""`, `0`
and `[]`, as for the corresponding Go types. -/
structure Message where
  ID : String
  Subject : String
  Date : Nat
  Flags : List String
  From : String
  To : List String
  Size : Nat
  Body : String
  Attachments : List Attachment
  deriving Repr, DecidableEq

/-- go-imap envelope data as used by `imap.go`: subject, date, the rendered
`From` addresses and the rendered `To` addresses. -/
structure Envelope where
  Subject : String
  Date : Nat
  From : List String
  To : List String
  deriving Repr, DecidableEq

/-- One part produced by the external multi-part decoder: an inline part with
its readable content, or an attachment part with filename, raw content and
declared content type (read errors inside a part's body are dropped by the Go
code with `b, _ := ioutil.ReadAll(...)`, so a part simply carries the bytes
that reading produced). -/
inductive MIMEPart where
  | inlinePart (content : String)
  | attachmentPart (filename : String) (content : List Nat) (mimeType : String)
  deriving Repr, DecidableEq

/-- One outcome of `mr.NextPart()` before the final `io.EOF`: either a part,
or a non-EOF error (the walker's `continue` branch). -/
inductive PartOutcome where
  | ok (p : MIMEPart)
  | readErr
  deriving Repr, DecidableEq

/-- One body literal of `msg.Body`: either `mail.CreateReader` fails on it
(the `continue` at the literal level) or it opens into a finite stream of
part outcomes ended by `io.EOF`. -/
inductive LiteralOutcome where
  | openErr
  | opened (parts : List PartOutcome)
  deriving Repr, DecidableEq

/-- One streamed fetch record (`*imap.Message`) as consumed by `imap.go`:
sequence number, envelope, flags, RFC822 size, and the body literals of
`msg.Body` in iteration order. -/
structure ImapRecord where
  SeqNum : Nat
  Envelope : Envelope
  Flags : List String
  Size : Nat
  Body : List LiteralOutcome
  deriving Repr, DecidableEq

/-- The two channels of a streaming fetch, as seen after the record channel
closes: the records delivered, and the value of the `done` channel (`none` =
nil error, `some e` = deferred stream error `e`). -/
structure FetchResult where
  records : List ImapRecord
  done : Option String
  deriving Repr, DecidableEq

/-- `IMAPClient`: the session guard's state is the held session reference
`client` (`nil` or a live session, modelled opaquely). -/
structure IMAPClient where
  client : Option Unit
  deriving Repr, DecidableEq

/-- A protocol call performed against the session. -/
inductive Effect where
  | selectMailbox (folder : String)
  | fetchRange (lo hi : Nat)
  | fetchNum (n : Nat)
  deriving Repr, DecidableEq

/-- `GetInboxResult` of `imap.go`. -/
structure GetInboxResult where
  Messages : List Message
  TotalCount : Nat
  deriving Repr, DecidableEq

/-- `GetFolderResult` of `imap.go`. -/
structure GetFolderResult where
  Messages : List Message
  TotalCount : Nat
  deriving Repr, DecidableEq

/-- `tls.Config` as used by `Connect`: only `InsecureSkipVerify` is set. -/
structure TLSConfig where
  InsecureSkipVerify : Bool
  deriving Repr, DecidableEq

/-- Which dial path `Connect` takes. -/
inductive DialMode where
  | startTLSUpgrade
  | directTLS
  deriving Repr, DecidableEq

/-- `Connect` (imap.go lines 46-69): port 1143 takes the plain-dial plus
`StartTLS` upgrade path with `InsecureSkipVerify: true`; every other port
takes the `DialTLS` path, whose `tls.Config` also sets
`InsecureSkipVerify: true`. -/
def connectTransport (port : Int) : DialMode × TLSConfig :=
  if port = 1143 then
    (DialMode.startTLSUpgrade, { InsecureSkipVerify := true })
  else
    (DialMode.directTLS, { InsecureSkipVerify := true })

/-- `Disconnect` (imap.go lines 81-95), with the outcome of the remote
`Logout` as environment (`none` = success).  On a logout error the function
returns the wrapped error without reaching the `c.client = nil` line; the
reference is cleared only on success. -/
def disconnect (c : IMAPClient) (logout : Option String) :
    IMAPClient × Option String :=
  match c.client with
  | none => (c, none)
  | some _ =>
    match logout with
    | some e => (c, some ("failed to logout from IMAP server: " ++ e))
    | none => ({ client := none }, none)

/-- Range-mode record assembly (imap.go lines 185-202 / 278-295): envelope
and flags only; `From` is the first rendered from-address when present, `To`
all rendered to-addresses in order; Size, Body, Attachments keep their zero
values in this mode. -/
def recordToMessage (r : ImapRecord) : Message :=
  { ID := toString r.SeqNum
    Subject := r.Envelope.Subject
    Date := r.Envelope.Date
    Flags := r.Flags
    From := match r.Envelope.From with
      | [] => ""
      | a :: _ => a
    To := r.Envelope.To
    Size := 0
    Body := ""
    Attachments := [] }

/-- The pagination arithmetic of imap.go lines 154-169 (repeated verbatim at
lines 247-262): `offset := (page-1)*pageSize` followed by the comparison of
`uint32(offset)` with `totalCount`, then `from := totalCount - uint32(offset)`
and the clamp of `to` against `uint32(pageSize)`.  Returns `none` for the two
empty-page early returns, otherwise `some (to, from)`.  Converting the Go
`int` products to `uint32` is reduction modulo `U32` (signed 64-bit wraparound
followed by 32-bit truncation is truncation). -/
def paginate (totalCount page pageSize : Nat) : Option (Nat × Nat) :=
  if totalCount = 0 then none
  else
    let offset := ((page - 1) * pageSize) % U32
    if totalCount ≤ offset then none
    else
      let fromSeq := totalCount - offset
      let toSeq := if pageSize % U32 < fromSeq then fromSeq - pageSize % U32 + 1 else 1
      some (toSeq, fromSeq)

/-- `GetInbox` (imap.go lines 132-212).  Environment: `sel` is the outcome of
`Select("INBOX", false)` carrying `mbox.Messages`; `fetch` the streamed
records and the deferred `done` error.  Returns the Go result together with
the protocol effects performed. -/
def getInbox (c : IMAPClient) (sel : Except String Nat) (fetch : FetchResult)
    (page pageSize : Nat) :
    Except String GetInboxResult × List Effect :=
  match c.client with
  | none => (Except.error "not connected to IMAP server", [])
  | some _ =>
    match sel with
    | Except.error e =>
      (Except.error ("failed to select inbox: " ++ e), [Effect.selectMailbox "INBOX"])
    | Except.ok totalCount =>
      if totalCount = 0 then
        (Except.ok { Messages := [], TotalCount := 0 }, [Effect.selectMailbox "INBOX"])
      else
        let offset := ((page - 1) * pageSize) % U32
        if totalCount ≤ offset then
          (Except.ok { Messages := [], TotalCount := totalCount },
           [Effect.selectMailbox "INBOX"])
        else
          let fromSeq := totalCount - offset
          let toSeq := if pageSize % U32 < fromSeq then fromSeq - pageSize % U32 + 1 else 1
          match fetch.done with
          | some e =>
            (Except.error ("failed to fetch messages: " ++ e),
             [Effect.selectMailbox "INBOX", Effect.fetchRange toSeq fromSeq])
          | none =>
            (Except.ok { Messages := fetch.records.map recordToMessage,
                         TotalCount := totalCount },
             [Effect.selectMailbox "INBOX", Effect.fetchRange toSeq fromSeq])

/-- `GetFolderMessages` (imap.go lines 221-305): identical to `GetInbox` up
to the selected mailbox name, the select error's wrapping text and the result
type. -/
def getFolderMessages (c : IMAPClient) (folder : String)
    (sel : Except String Nat) (fetch : FetchResult) (page pageSize : Nat) :
    Except String GetFolderResult × List Effect :=
  match c.client with
  | none => (Except.error "not connected to IMAP server", [])
  | some _ =>
    match sel with
    | Except.error e =>
      (Except.error ("failed to select folder: " ++ e), [Effect.selectMailbox folder])
    | Except.ok totalCount =>
      if totalCount = 0 then
        (Except.ok { Messages := [], TotalCount := 0 }, [Effect.selectMailbox folder])
      else
        let offset := ((page - 1) * pageSize) % U32
        if totalCount ≤ offset then
          (Except.ok { Messages := [], TotalCount := totalCount },
           [Effect.selectMailbox folder])
        else
          let fromSeq := totalCount - offset
          let toSeq := if pageSize % U32 < fromSeq then fromSeq - pageSize % U32 + 1 else 1
          match fetch.done with
          | some e =>
            (Except.error ("failed to fetch messages: " ++ e),
             [Effect.selectMailbox folder, Effect.fetchRange toSeq fromSeq])
          | none =>
            (Except.ok { Messages := fetch.records.map recordToMessage,
                         TotalCount := totalCount },
             [Effect.selectMailbox folder, Effect.fetchRange toSeq fromSeq])

/-- `strconv.ParseUint(id, 10, 32)`: decimal digits only, no sign, rejecting
the empty string and values above `2^32 - 1`; errors carry strconv's message
text. -/
def parseUint32 (s : String) : Except String Nat :=
  if s.data = [] then
    Except.error ("strconv.ParseUint: parsing \"" ++ s ++ "\": invalid syntax")
  else if s.data.all (fun c => c.isDigit) then
    let v := s.data.foldl (fun acc c => acc * 10 + (c.toNat - 48)) 0
    if v ≤ U32 - 1 then Except.ok v
    else Except.error ("strconv.ParseUint: parsing \"" ++ s ++ "\": value out of range")
  else
    Except.error ("strconv.ParseUint: parsing \"" ++ s ++ "\": invalid syntax")

/-- The MIME part loop of `GetEmailByID` (imap.go lines 366-390) over the
finite outcome stream of one opened literal, threading the current Body and
Attachments: an inline part overwrites the body, an attachment part is
appended, a failed `NextPart` (`continue` branch) contributes nothing. -/
def walkParts : List PartOutcome → String → List Attachment → String × List Attachment
  | [], b, a => (b, a)
  | PartOutcome.readErr :: rest, b, a => walkParts rest b a
  | PartOutcome.ok (MIMEPart.inlinePart s) :: rest, _, a => walkParts rest s a
  | PartOutcome.ok (MIMEPart.attachmentPart f cont m) :: rest, b, a =>
      walkParts rest b (a ++ [{ Filename := f, Content := cont, MimeType := m }])

/-- The literal loop of `GetEmailByID` (imap.go lines 360-391): literals whose
`mail.CreateReader` fails are skipped; the others are walked in order,
threading Body/Attachments. -/
def walkLiterals (lits : List LiteralOutcome) : String × List Attachment :=
  lits.foldl
    (fun acc lit =>
      match lit with
      | LiteralOutcome.openErr => acc
      | LiteralOutcome.opened ps => walkParts ps acc.1 acc.2)
    ("", [])

/-- Single-message record assembly (imap.go lines 343-392): envelope, flags
and size as in range mode, plus the body walk over the record's literals. -/
def recordToFullMessage (r : ImapRecord) : Message :=
  let bw := walkLiterals r.Body
  { ID := toString r.SeqNum
    Subject := r.Envelope.Subject
    Date := r.Envelope.Date
    Flags := r.Flags
    From := match r.Envelope.From with
      | [] => ""
      | a :: _ => a
    To := r.Envelope.To
    Size := r.Size
    Body := bw.1
    Attachments := bw.2 }

/-- The record loop of `GetEmailByID`: each record builds a fresh `Message`,
so the last streamed record wins; zero records leave `message == nil`. -/
def lastMessage (rs : List ImapRecord) : Option Message :=
  rs.foldl (fun _ r => some (recordToFullMessage r)) none

/-- `GetEmailByID` (imap.go lines 308-403).  Environment: `sel` is the
outcome of selecting the (defaulted) folder, `fetch` the single-id fetch
stream.  Returns the Go result and the protocol effects performed, in order:
nothing before the ID parse succeeds, the selection, then the fetch. -/
def getEmailByID (c : IMAPClient) (id folder : String)
    (sel : Except String Nat) (fetch : FetchResult) :
    Except String Message × List Effect :=
  match c.client with
  | none => (Except.error "not connected to IMAP server", [])
  | some _ =>
    match parseUint32 id with
    | Except.error e => (Except.error ("invalid email ID: " ++ e), [])
    | Except.ok seqNum =>
      let folder := if folder = "" then "INBOX" else folder
      match sel with
      | Except.error e =>
        (Except.error ("failed to select folder " ++ folder ++ ": " ++ e),
         [Effect.selectMailbox folder])
      | Except.ok _ =>
        let msg := lastMessage fetch.records
        match fetch.done with
        | some e =>
          (Except.error ("failed to fetch message: " ++ e),
           [Effect.selectMailbox folder, Effect.fetchNum seqNum])
        | none =>
          match msg with
          | none =>
            (Except.error ("message with ID " ++ id ++ " not found"),
             [Effect.selectMailbox folder, Effect.fetchNum seqNum])
          | some m => (Except.ok m, [Effect.selectMailbox folder, Effect.fetchNum seqNum])

/-- The contents of the inline parts of an outcome stream, in document
order. -/
def inlineContents : List PartOutcome → List String
  | [] => []
  | PartOutcome.ok (MIMEPart.inlinePart s) :: rest => s :: inlineContents rest
  | _ :: rest => inlineContents rest

/-- The attachments built from the attachment parts of an outcome stream, in
document order. -/
def attachmentsOf : List PartOutcome → List Attachment
  | [] => []
  | PartOutcome.ok (MIMEPart.attachmentPart f cont m) :: rest =>
      { Filename := f, Content := cont, MimeType := m } :: attachmentsOf rest
  | _ :: rest => attachmentsOf rest

/-- The outcome stream with the failed `NextPart` outcomes dropped. -/
def okParts : List PartOutcome → List PartOutcome
  | [] => []
  | PartOutcome.readErr :: rest => okParts rest
  | PartOutcome.ok p :: rest => PartOutcome.ok p :: okParts rest

/-- A sample streamed record, used to instantiate the environment of the
fetch operations at concrete inputs. -/
def demoRecord : ImapRecord :=
  { SeqNum := 7
    Envelope :=
      { Subject := "hi"
        Date := 100
        From := ["alice@example.org"]
        To := ["bob@example.org"] }
    Flags := ["\\Seen"]
    Size := 42
    Body := [] }

/-- The outcome stream of a literal with one inline part followed by two
attachment parts. -/
def demoParts : List PartOutcome :=
  [PartOutcome.ok (MIMEPart.inlinePart "hello"),
   PartOutcome.ok (MIMEPart.attachmentPart "a.txt" [104, 105] "text/plain"),
   PartOutcome.ok (MIMEPart.attachmentPart "b.png" [0, 1] "image/png")]

/-- The effect trace of `getInbox` agrees with the standalone pagination
function: selection always happens, and a range fetch is issued exactly when
`paginate` produces a range, for that range. -/
theorem getInbox_effects_eq_paginate (tc page pageSize : Nat) (fetch : FetchResult) :
    (getInbox { client := some () } (Except.ok tc) fetch page pageSize).2 =
      Effect.selectMailbox "INBOX" ::
        (match paginate tc page pageSize with
          | none => []
          | some (t, f) => [Effect.fetchRange t f]) := by
  by_cases h0 : tc = 0
  · simp [getInbox, paginate, h0]
  · by_cases h1 : tc ≤ ((page - 1) * pageSize) % U32
    · simp [getInbox, paginate, h0, h1]
    · rcases fetch with ⟨recs, done⟩
      cases done <;> simp [getInbox, paginate, h0, h1]

/-- Claim C1: for `page ≥ 1`, `pageSize ≥ 1`, whenever the Go offset test
`uint32((page-1)*pageSize) >= totalCount` holds (in particular whenever
`totalCount = 0`), `GetInbox` and `GetFolderMessages` return an empty
`Messages` list with `TotalCount = totalCount`, issuing no fetch. -/
theorem pageBeyondTotal_empty (tc page pageSize : Nat) (folder : String)
    (fetch fetch2 : FetchResult) (hpage : 1 ≤ page) (hps : 1 ≤ pageSize)
    (h : tc ≤ ((page - 1) * pageSize) % U32) :
    getInbox { client := some () } (Except.ok tc) fetch page pageSize =
      (Except.ok { Messages := [], TotalCount := tc }, [Effect.selectMailbox "INBOX"]) ∧
    getFolderMessages { client := some () } folder (Except.ok tc) fetch2 page pageSize =
      (Except.ok { Messages := [], TotalCount := tc }, [Effect.selectMailbox folder]) := by
  rcases Nat.eq_zero_or_pos tc with h0 | h0
  · subst h0
    constructor <;> simp [getInbox, getFolderMessages]
  · have h0' : ¬ tc = 0 := by omega
    constructor <;> simp [getInbox, getFolderMessages, h0', h]

/-- Claim C1, witness: `totalCount = 25`, `page = 4`, `pageSize = 10`. -/
theorem pageBeyondTotal_empty_witness :
    (1 ≤ 4 ∧ 1 ≤ 10 ∧ 25 ≤ ((4 - 1) * 10) % U32) ∧
    (getInbox { client := some () } (Except.ok 25)
        { records := [], done := none } 4 10 =
      (Except.ok { Messages := [], TotalCount := 25 }, [Effect.selectMailbox "INBOX"]) ∧
     getFolderMessages { client := some () } "Archive" (Except.ok 25)
        { records := [], done := none } 4 10 =
      (Except.ok { Messages := [], TotalCount := 25 }, [Effect.selectMailbox "Archive"])) :=
  ⟨⟨by decide, by decide, by decide⟩,
   pageBeyondTotal_empty 25 4 10 "Archive" _ _ (by decide) (by decide) (by decide)⟩

/-- Claim C2, counterexample: at `totalCount = 5`, `page = 1`,
`pageSize = 2^32 + 1` the code produces the non-empty range `[5, 5]`, yet
`from = 5 > pageSize` is false, so the claimed boundary rule demands
`to = 1`; the code's `to` is `5`, because the comparison and the subtraction
use `uint32(pageSize) = 1`, not `pageSize`. -/
theorem paginate_uint32_truncation_cex :
    paginate 5 1 (U32 + 1) = some (5, 5) ∧ ¬ (U32 + 1 < 5) ∧ (5 : Nat) ≠ 1 := by
  decide

/-- Claim C2 (amended: `pageSize < 2^32`, so that `uint32(pageSize)` is
`pageSize` itself): whenever the pagination computation produces a range
`(to, from)`, then `1 ≤ to ≤ from ≤ totalCount`, the range holds at most
`pageSize` identifiers, `to = from - pageSize + 1` when `from > pageSize`,
and `to = 1` otherwise. -/
theorem paginate_range_bounds (tc page pageSize t f : Nat)
    (hpage : 1 ≤ page) (hps : 1 ≤ pageSize) (hlt : pageSize < U32)
    (h : paginate tc page pageSize = some (t, f)) :
    1 ≤ t ∧ t ≤ f ∧ f ≤ tc ∧ f - t + 1 ≤ pageSize ∧
    (pageSize < f → t = f - pageSize + 1) ∧ (f ≤ pageSize → t = 1) := by
  have hlt' : pageSize < 4294967296 := hlt
  have hmod : pageSize % 4294967296 = pageSize := Nat.mod_eq_of_lt hlt'
  simp only [paginate, U32, hmod] at h
  generalize hq : (page - 1) * pageSize = q at h
  split_ifs at h with h0 h1 h2
  · simp only [Option.some.injEq, Prod.mk.injEq] at h
    obtain ⟨ht, hf⟩ := h
    subst ht
    subst hf
    omega
  · simp only [Option.some.injEq, Prod.mk.injEq] at h
    obtain ⟨ht, hf⟩ := h
    subst ht
    subst hf
    omega

/-- Claim C2, witness: `totalCount = 25`, `page = 3`, `pageSize = 10` gives
the partial last page `[1, 5]`. -/
theorem paginate_range_bounds_witness :
    (1 ≤ 3 ∧ 1 ≤ 10 ∧ 10 < U32 ∧ paginate 25 3 10 = some (1, 5)) ∧
    (1 ≤ 1 ∧ 1 ≤ 5 ∧ 5 ≤ 25 ∧ 5 - 1 + 1 ≤ 10 ∧
     (10 < 5 → (1 : Nat) = 5 - 10 + 1) ∧ (5 ≤ 10 → (1 : Nat) = 1)) :=
  ⟨⟨by decide, by decide, by decide, by decide⟩,
   paginate_range_bounds 25 3 10 1 5 (by decide) (by decide) (by decide) (by decide)⟩

/-- Claim C4, counterexample: at port 993 (any port other than 1143, here the
standard IMAPS port) `Connect` takes the direct-TLS path and its TLS
configuration still sets `InsecureSkipVerify`, so certificate validation is
bypassed there as well. -/
theorem connect_insecure_on_other_port_cex :
    (993 : Int) ≠ 1143 ∧
    (connectTransport 993).2.InsecureSkipVerify = true ∧
    (connectTransport 993).1 = DialMode.directTLS := by
  decide

/-- Claim C4 (amended): the port only selects the dial path (1143 takes the
StartTLS-upgrade branch, everything else direct TLS); the
certificate-validation bypass (`InsecureSkipVerify`) is applied on EVERY
port, not only on 1143. -/
theorem connect_insecureSkipVerify_every_port (port : Int) :
    (connectTransport port).2.InsecureSkipVerify = true ∧
    ((connectTransport port).1 = DialMode.startTLSUpgrade ↔ port = 1143) := by
  unfold connectTransport
  split_ifs with h <;> simp [h]

/-- Claim C9, counterexample: with a live session and a failing remote
logout, `Disconnect` returns the wrapped error but leaves the session
reference set, and a subsequent `GetInbox` on the returned state proceeds
normally (here returning the empty mailbox result) instead of behaving as
not-connected. -/
theorem disconnect_logoutError_cex :
    disconnect { client := some () } (some "boom") =
      ({ client := some () }, some ("failed to logout from IMAP server: " ++ "boom")) ∧
    (getInbox (disconnect { client := some () } (some "boom")).1
        (Except.ok 0) { records := [], done := none } 1 1).1 =
      Except.ok { Messages := [], TotalCount := 0 } :=
  ⟨rfl, rfl⟩

/-- Claim C9 (amended): when the remote logout fails, `Disconnect` returns
the wrapped error and leaves the in-memory session reference UNCHANGED (it is
cleared only on successful logout), so subsequent operations behave exactly
as on the still-connected guard. -/
theorem disconnect_logoutError_keepsSession (e : String) :
    disconnect { client := some () } (some e) =
      ({ client := some () }, some ("failed to logout from IMAP server: " ++ e)) ∧
    (∀ sel fetch page pageSize,
      getInbox (disconnect { client := some () } (some e)).1 sel fetch page pageSize =
        getInbox { client := some () } sel fetch page pageSize) :=
  ⟨rfl, fun _ _ _ _ => rfl⟩

/-- Claim C5: once the range fetch is reached, a deferred stream error (the
`done` channel carrying `some e`) makes both `GetInbox` and
`GetFolderMessages` return the wrapped fetch error, whatever records were
already streamed and assembled: no partial page is produced. -/
theorem deferredError_failWhole (tc page pageSize : Nat) (folder : String)
    (recs recs2 : List ImapRecord) (e : String)
    (h0 : 0 < tc) (h1 : ((page - 1) * pageSize) % U32 < tc) :
    (getInbox { client := some () } (Except.ok tc)
        { records := recs, done := some e } page pageSize).1 =
      Except.error ("failed to fetch messages: " ++ e) ∧
    (getFolderMessages { client := some () } folder (Except.ok tc)
        { records := recs2, done := some e } page pageSize).1 =
      Except.error ("failed to fetch messages: " ++ e) := by
  have h0' : ¬ tc = 0 := by omega
  have h1' : ¬ tc ≤ ((page - 1) * pageSize) % U32 := by omega
  constructor <;> simp [getInbox, getFolderMessages, h0', h1']

/-- Claim C5, witness: one record was already streamed, the deferred error
`"boom"` still discards it. -/
theorem deferredError_failWhole_witness :
    (0 < 1 ∧ ((1 - 1) * 1) % U32 < 1) ∧
    ((getInbox { client := some () } (Except.ok 1)
        { records := [demoRecord], done := some "boom" } 1 1).1 =
      Except.error ("failed to fetch messages: " ++ "boom") ∧
     (getFolderMessages { client := some () } "Sent" (Except.ok 1)
        { records := [demoRecord], done := some "boom" } 1 1).1 =
      Except.error ("failed to fetch messages: " ++ "boom")) :=
  ⟨⟨by decide, by decide⟩,
   deferredError_failWhole 1 1 1 "Sent" [demoRecord] [demoRecord] "boom"
     (by decide) (by decide)⟩

/-- Agreement of the two page operations: same error cases, and on success
equal `Messages`, equal `TotalCount` and equal protocol effects. -/
def pageResultsAgree (r1 : Except String GetInboxResult × List Effect)
    (r2 : Except String GetFolderResult × List Effect) : Prop :=
  match r1.1, r2.1 with
  | Except.error _, Except.error _ => r1.2 = r2.2
  | Except.ok a, Except.ok b =>
      a.Messages = b.Messages ∧ a.TotalCount = b.TotalCount ∧ r1.2 = r2.2
  | _, _ => False

/-- Claim C10: for every client state, session responses and
`page, pageSize`, `GetInbox page pageSize` and
`GetFolderMessages "INBOX" page pageSize` err in exactly the same cases and
on success return equal `Messages` lists and equal `TotalCount`, performing
the same protocol effects (neither operation writes the session reference, so
the client state is left unchanged by both). -/
theorem getInbox_agrees_getFolderMessages (c : IMAPClient)
    (sel : Except String Nat) (fetch : FetchResult) (page pageSize : Nat) :
    pageResultsAgree (getInbox c sel fetch page pageSize)
      (getFolderMessages c "INBOX" sel fetch page pageSize) := by
  rcases c with ⟨cl⟩
  cases cl with
  | none => simp [getInbox, getFolderMessages, pageResultsAgree]
  | some u =>
    cases sel with
    | error e => simp [getInbox, getFolderMessages, pageResultsAgree]
    | ok tc =>
      by_cases h0 : tc = 0
      · simp [getInbox, getFolderMessages, pageResultsAgree, h0]
      · by_cases h1 : tc ≤ ((page - 1) * pageSize) % U32
        · simp [getInbox, getFolderMessages, pageResultsAgree, h0, h1]
        · rcases fetch with ⟨recs, done⟩
          cases done <;> simp [getInbox, getFolderMessages, pageResultsAgree, h0, h1]

/-- Claim C6: with a connected session, an `id` that does not parse as an
unsigned 32-bit integer makes `GetEmailByID` return the wrapped invalid-ID
error with an empty effect trace: no mailbox selection and no fetch are
performed, whatever the server would have answered, and the session state is
untouched (the operation never writes the session reference). -/
theorem getEmailByID_invalidID_noFetch (id folder e : String)
    (sel : Except String Nat) (fetch : FetchResult)
    (h : parseUint32 id = Except.error e) :
    getEmailByID { client := some () } id folder sel fetch =
      (Except.error ("invalid email ID: " ++ e), []) := by
  simp [getEmailByID, h]

/-- Claim C6, witness: `id = "not-a-number"`. -/
theorem getEmailByID_invalidID_noFetch_witness :
    parseUint32 "not-a-number" =
      Except.error "strconv.ParseUint: parsing \"not-a-number\": invalid syntax" ∧
    getEmailByID { client := some () } "not-a-number" "INBOX" (Except.ok 3)
        { records := [], done := none } =
      (Except.error ("invalid email ID: " ++
        "strconv.ParseUint: parsing \"not-a-number\": invalid syntax"), []) :=
  ⟨rfl,
   getEmailByID_invalidID_noFetch "not-a-number" "INBOX"
     "strconv.ParseUint: parsing \"not-a-number\": invalid syntax"
     (Except.ok 3) { records := [], done := none } rfl⟩

/-- Claim C7: with a valid sequence-number `id`, when the single-message
fetch stream closes without error having yielded zero records,
`GetEmailByID` returns the not-found error (and no `Message` value). -/
theorem getEmailByID_emptyStream_notFound (id folder : String) (n m : Nat)
    (h : parseUint32 id = Except.ok n) :
    (getEmailByID { client := some () } id folder (Except.ok m)
        { records := [], done := none }).1 =
      Except.error ("message with ID " ++ id ++ " not found") := by
  simp [getEmailByID, h, lastMessage]

/-- Claim C7, witness: `id = "5"` against an empty stream. -/
theorem getEmailByID_emptyStream_notFound_witness :
    parseUint32 "5" = Except.ok 5 ∧
    (getEmailByID { client := some () } "5" "INBOX" (Except.ok 3)
        { records := [], done := none }).1 =
      Except.error ("message with ID " ++ "5" ++ " not found") :=
  ⟨rfl, getEmailByID_emptyStream_notFound "5" "INBOX" 5 3 rfl⟩

/-- The walk of one literal computes the last inline content (defaulting to
the incoming body) and appends the attachments in encounter order. -/
theorem walkParts_eq (os : List PartOutcome) (b : String) (a : List Attachment) :
    walkParts os b a = ((inlineContents os).getLastD b, a ++ attachmentsOf os) := by
  induction os generalizing b a with
  | nil => simp [walkParts, inlineContents, attachmentsOf]
  | cons o rest ih =>
    cases o with
    | readErr =>
      simp only [walkParts, inlineContents, attachmentsOf, ih]
    | ok p =>
      cases p with
      | inlinePart s =>
        simp only [walkParts, inlineContents, attachmentsOf, ih, List.getLastD_cons]
      | attachmentPart f cont m =>
        simp only [walkParts, inlineContents, attachmentsOf, ih, List.append_assoc,
          List.singleton_append]

/-- Claim C3: on a literal holding at least one inline part, the walker
leaves `Body` equal to the content of the LAST inline part (each inline part
overwrites, never concatenates, so attachments' positions cannot influence
`Body`), and `Attachments` equal to exactly the attachment parts in
encounter order. -/
theorem mime_last_inline_overwrites (os : List PartOutcome)
    (h : inlineContents os ≠ []) :
    (walkParts os "" []).1 = (inlineContents os).getLast h ∧
    (walkParts os "" []).2 = attachmentsOf os := by
  rw [walkParts_eq]
  refine ⟨?_, by simp⟩
  simp [List.getLastD_eq_getLast?, List.getLast?_eq_getLast _ h]

/-- Claim C3, witness: one inline part followed by two attachment parts gives
`Body = "hello"` and the two attachments in order. -/
theorem mime_last_inline_overwrites_witness :
    inlineContents demoParts ≠ [] ∧
    ((walkParts demoParts "" []).1 = (inlineContents demoParts).getLast (by decide) ∧
     (walkParts demoParts "" []).2 = attachmentsOf demoParts) :=
  ⟨by decide, mime_last_inline_overwrites demoParts (by decide)⟩

/-- Claim C8: the part loop of the walker is a total function of the finite
part-outcome stream the external decoder yields (spec §6): any run of `k`
consecutive failed `NextPart` outcomes is traversed without effect on the
accumulated state, and in general the walk equals the walk of the stream with
all failed outcomes dropped — a failing part is skipped and the loop reaches
the parts after it (or the end of the literal). -/
theorem walker_skips_failed_parts (k : Nat) (os : List PartOutcome)
    (b : String) (a : List Attachment) :
    walkParts (List.replicate k PartOutcome.readErr ++ os) b a = walkParts os b a ∧
    walkParts os b a = walkParts (okParts os) b a := by
  constructor
  · induction k with
    | zero => simp
    | succ n ih => simpa [List.replicate_succ, walkParts] using ih
  · induction os generalizing b a with
    | nil => rfl
    | cons o rest ih =>
      cases o with
      | readErr => simp [walkParts, okParts, ih]
      | ok p =>
        cases p with
        | inlinePart s => simp [walkParts, okParts, ih]
        | attachmentPart f cont m => simp [walkParts, okParts, ih]

end SmtpClient
